import Mathlib

/-!
Verification development for the mlTetris training-coordinator core.

The Python source under `src/` is shallowly embedded here:

* `src/web/training_manager.py` (`TrainingManager`) becomes a pure state
  machine over `Manager.ManagerState`; each coordinator method becomes a
  Lean function on that state, additionally returning the list of
  primitive `Effect`s it performs in order (flag writes, queue puts,
  process joins/terminations), so that ordering claims can be stated.
  Worker-process liveness is abstracted to a boolean per worker handle
  (`p is not None and p.is_alive()`); join-with-timeout outcomes are
  resolved by an explicit boolean oracle (`tEx`/`dEx`: did the worker
  exit within the join timeout), and `terminate()` is modelled as
  forcibly ending the worker.
* `src/training/callbacks.py` (`WebMetricsCallback`, `GoalReachedCallback`)
  becomes `Callback.on_step` / `Callback.goal_on_step`; the blocking
  `pause_event.wait()` is modelled as returning, with a boolean oracle
  saying whether the supervisor set the stop flag (and the pause gate)
  while the worker was blocked there.  Each iteration also returns the
  ordered list of `Phase`s it executed.
* `src/training/model_slots.py` (`ModelSlotManager`) becomes functions over
  an explicit directory-listing model of the checkpoint tree; the Python
  regex `re.match(r"^[a-zA-Z0-9_-]+$", s)` is embedded with Python's `$`
  semantics, under which `$` also matches just before one trailing newline.
* `src/web/connection_manager.py` (`ConnectionManager.broadcast`) becomes a
  pure pass over a client list with a failure predicate standing for
  `send_json` raising.
* `src/training/agent.py` / `config.py` checkpoint metadata save/load
  becomes a pure round trip through a `Checkpoint` record.

Python floats are modelled as rationals (`ℚ`); the arithmetic the claims
mention (clamping, `(1.0 - speed) * 0.5`) is exact at every value the
claims name.
-/

namespace MlTetris

/-- The `TrainingManager.status` string field, as an enumeration of the
values the source assigns: "stopped", "running", "paused", "stopping",
"demo_running". -/
inductive Status
  | stopped
  | running
  | paused
  | stopping
  | demo_running
deriving DecidableEq, Repr

/-- Command messages flowing server → worker through `command_queue`
(`{"command": "stop"}`, `{"command": "set_mode", "visual": v}`,
`{"command": "set_speed", "speed": s}`).  Speeds are rationals. -/
inductive Cmd
  | stop
  | set_mode (visual : Bool)
  | set_speed (speed : ℚ)
deriving DecidableEq, Repr

/-- Telemetry messages flowing worker → server through `metrics_queue`.
Payload fields are elided: no claim below inspects a payload, only which
message kinds are enqueued and in what order. -/
inductive Msg
  | metrics
  | board
  | episode
  | demo_metrics
  | demo_episode
  | status (s : Status)
  | info
  | error
deriving DecidableEq, Repr

/-- Primitive side effects performed by `TrainingManager` methods, in
program order, used to state ordering claims about the stop path. -/
inductive Effect
  | setStatus (s : Status)
  | setStopFlag
  | clearStopFlag
  | setPauseGate
  | putCommand (c : Cmd)
  | clearQueues
  | startTrainingProc
  | startDemoProc
  | joinTraining (timeout : ℕ)
  | terminateTraining
  | joinDemo (timeout : ℕ)
  | terminateDemo
deriving DecidableEq, Repr

namespace Manager

/-- Supervisor-side state of a `TrainingManager`.

`trainingAlive` stands for `self.process is not None and
self.process.is_alive()`, `demoAlive` likewise for `self.demo_process`.
`pauseEvent` / `stopEvent` are the two `multiprocessing.Event` flags
(`true` = set).  The two queues hold their pending contents in FIFO
order. -/
structure ManagerState where
  trainingAlive : Bool
  demoAlive : Bool
  status : Status
  pauseEvent : Bool
  stopEvent : Bool
  visualMode : Bool
  speed : ℚ
  metricsQueue : List Msg
  commandQueue : List Cmd
deriving DecidableEq, Repr

/-- `TrainingManager.__init__`: stopped, pause gate set (= not paused),
stop flag clear, headless, speed 1.0, empty queues, no workers. -/
def initState : ManagerState :=
  { trainingAlive := false
    demoAlive := false
    status := Status.stopped
    pauseEvent := true
    stopEvent := false
    visualMode := false
    speed := 1
    metricsQueue := []
    commandQueue := [] }

/-- `TrainingManager.is_running`: the training process handle exists and
is alive. -/
def is_running (s : ManagerState) : Bool :=
  s.trainingAlive

/-- `TrainingManager.is_demo_running`: the demo process handle exists and
is alive. -/
def is_demo_running (s : ManagerState) : Bool :=
  s.demoAlive

/-- `TrainingManager.start_training`: refuse if the training process is
alive; otherwise clear both queues, set the pause gate, clear the stop
flag, reset `visual_mode`/`speed`, spawn the training worker and set
status to "running".  (The `config_dict` argument is forwarded to the
worker process and never touches supervisor state, so it is elided.) -/
def start_training (s : ManagerState) : Bool × ManagerState × List Effect :=
  if is_running s then (false, s, [])
  else
    (true,
     { s with
        metricsQueue := []
        commandQueue := []
        pauseEvent := true
        stopEvent := false
        visualMode := false
        speed := 1
        trainingAlive := true
        status := Status.running },
     [Effect.clearQueues, Effect.setPauseGate, Effect.clearStopFlag,
      Effect.startTrainingProc, Effect.setStatus Status.running])

/-- `TrainingManager.stop_demo`: no-op unless the demo process is alive;
otherwise set status "stopping", set the stop flag, join with timeout 3,
terminate and join 1 more if still alive (`dEx` = the demo exited within
the first join), drop the handle and set status "stopped". -/
def stop_demo (dEx : Bool) (s : ManagerState) : ManagerState × List Effect :=
  if is_demo_running s = false then (s, [])
  else
    ({ s with
        status := Status.stopped
        stopEvent := true
        demoAlive := false },
     [Effect.setStatus Status.stopping, Effect.setStopFlag, Effect.joinDemo 3]
       ++ (if dEx then [] else [Effect.terminateDemo, Effect.joinDemo 1])
       ++ [Effect.setStatus Status.stopped])

/-- `TrainingManager.stop_training`: if the demo process is alive,
delegate to `stop_demo` and return; else if the training process is not
alive, just set status "stopped"; otherwise set status "stopping", set
the stop flag, set the pause gate, put a `stop` command (backward
compatibility), join with timeout 5, terminate and join 2 more if still
alive (`tEx` = the worker exited within the first join), then set status
"stopped". -/
def stop_training (tEx dEx : Bool) (s : ManagerState) : ManagerState × List Effect :=
  if is_demo_running s then stop_demo dEx s
  else if is_running s = false then
    ({ s with status := Status.stopped }, [Effect.setStatus Status.stopped])
  else
    ({ s with
        status := Status.stopped
        stopEvent := true
        pauseEvent := true
        commandQueue := s.commandQueue ++ [Cmd.stop]
        trainingAlive := false },
     [Effect.setStatus Status.stopping, Effect.setStopFlag, Effect.setPauseGate,
      Effect.putCommand Cmd.stop, Effect.joinTraining 5]
       ++ (if tEx then [] else [Effect.terminateTraining, Effect.joinTraining 2])
       ++ [Effect.setStatus Status.stopped])

/-- `TrainingManager.start_demo`: if the training process is alive, call
`stop_training` first; refuse if the demo process is (still) alive;
otherwise clear both queues, clear the stop flag, spawn the demo worker,
set status "demo_running" and force `visual_mode := true`.  (The
`model_path` argument is forwarded to the worker and elided here.) -/
def start_demo (tEx dEx : Bool) (s : ManagerState) : Bool × ManagerState × List Effect :=
  let s1 := if is_running s then (stop_training tEx dEx s).1 else s
  let tr1 := if is_running s then (stop_training tEx dEx s).2 else []
  if is_demo_running s1 then (false, s1, tr1)
  else
    (true,
     { s1 with
        metricsQueue := []
        commandQueue := []
        stopEvent := false
        demoAlive := true
        status := Status.demo_running
        visualMode := true },
     tr1 ++ [Effect.clearQueues, Effect.clearStopFlag, Effect.startDemoProc,
             Effect.setStatus Status.demo_running])

/-- `TrainingManager.pause_training`: fail (and change nothing) if not
running or already paused; otherwise clear the pause gate and set status
"paused". -/
def pause_training (s : ManagerState) : Bool × ManagerState :=
  if is_running s = false ∨ s.status = Status.paused then (false, s)
  else (true, { s with pauseEvent := false, status := Status.paused })

/-- `TrainingManager.resume_training`: fail (and change nothing) unless
status is "paused"; otherwise set the pause gate and status "running". -/
def resume_training (s : ManagerState) : Bool × ManagerState :=
  if s.status ≠ Status.paused then (false, s)
  else (true, { s with pauseEvent := true, status := Status.running })

/-- `TrainingManager.set_mode`: record the mode and enqueue a `set_mode`
command. -/
def set_mode (v : Bool) (s : ManagerState) : ManagerState :=
  { s with visualMode := v, commandQueue := s.commandQueue ++ [Cmd.set_mode v] }

/-- `TrainingManager.set_speed`: record the speed and enqueue a
`set_speed` command. -/
def set_speed (sp : ℚ) (s : ManagerState) : ManagerState :=
  { s with speed := sp, commandQueue := s.commandQueue ++ [Cmd.set_speed sp] }

/-- One coordinator API call.  The boolean arguments resolve the
join-timeout races: `tEx`/`dEx` say whether the training/demo worker
exited within the first join timeout on the corresponding stop path. -/
inductive MgrOp
  | startTraining
  | startDemo (tEx dEx : Bool)
  | stopTraining (tEx dEx : Bool)
  | stopDemo (dEx : Bool)
  | pauseTraining
  | resumeTraining
  | setMode (v : Bool)
  | setSpeed (sp : ℚ)
deriving DecidableEq, Repr

/-- State reached after one coordinator call (return values and effect
traces projected away). -/
def step (s : ManagerState) : MgrOp → ManagerState
  | MgrOp.startTraining => (start_training s).2.1
  | MgrOp.startDemo tEx dEx => (start_demo tEx dEx s).2.1
  | MgrOp.stopTraining tEx dEx => (stop_training tEx dEx s).1
  | MgrOp.stopDemo dEx => (stop_demo dEx s).1
  | MgrOp.pauseTraining => (pause_training s).2
  | MgrOp.resumeTraining => (resume_training s).2
  | MgrOp.setMode v => set_mode v s
  | MgrOp.setSpeed sp => set_speed sp s

/-- State reached after a sequence of coordinator calls. -/
def run (s : ManagerState) (ops : List MgrOp) : ManagerState :=
  ops.foldl step s

/-- Mutual exclusion of the two worker kinds: at most one of the training
worker and the demo worker is alive. -/
def mutex (s : ManagerState) : Prop :=
  s.trainingAlive = false ∨ s.demoAlive = false

end Manager

namespace Callback

/-- Per-iteration phases of `WebMetricsCallback._on_step`, in execution
order, used to state ordering claims. -/
inductive Phase
  | checkStop1
  | drainCommands
  | waitPauseGate
  | checkStop2
  | trackReward
  | trackLines
  | sendBoard
  | sleepDelay
  | sendMetrics
  | episodeEnd
deriving DecidableEq, Repr

/-- Worker-side state of a `WebMetricsCallback`.  `update_freq` and
`board_update_freq` are the constructor arguments (immutable);
`n_calls` is the SB3 `BaseCallback` call counter, incremented by the
`on_step` wrapper before `_on_step` runs. -/
structure CbState where
  update_freq : ℕ
  board_update_freq : ℕ
  visual_mode : Bool
  step_delay : ℚ
  n_calls : ℕ
  episode_rewards : List ℚ
  episode_lines : List ℕ
  current_episode_reward : ℚ
  current_episode_lines : ℕ
  episode_count : ℕ
  best_lines : ℕ
deriving DecidableEq, Repr

/-- The shared objects the callback touches: the two optional events
(`None` when the callback was built without them — `TrainingManager`
always passes both) and the two queues. -/
structure CbWorld where
  stopEvent : Option Bool
  pauseEvent : Option Bool
  commandQueue : List Cmd
  metricsQueue : List Msg
deriving DecidableEq, Repr

/-- `self.ev is not None and self.ev.is_set()`. -/
def eventIsSet : Option Bool → Bool
  | none => false
  | some b => b

/-- `if self.ev is not None: self.ev.set()`. -/
def setEvent : Option Bool → Option Bool
  | none => none
  | some _ => some true

/-- One command dispatched inside `_process_commands`: `stop` sets the
stop event (if present); `set_mode` records the mode and enqueues an
`info` message; `set_speed` clamps the speed to `[0.1, 1.0]` and sets
`step_delay := (1.0 - speed) * 0.5`. -/
def process_one (st : CbState) (w : CbWorld) : Cmd → CbState × CbWorld
  | Cmd.stop => (st, { w with stopEvent := setEvent w.stopEvent })
  | Cmd.set_mode v =>
      ({ st with visual_mode := v },
       { w with metricsQueue := w.metricsQueue ++ [Msg.info] })
  | Cmd.set_speed s =>
      let speed := max (1 / 10 : ℚ) (min 1 s)
      ({ st with step_delay := (1 - speed) * (1 / 2) }, w)

/-- `WebMetricsCallback._process_commands`: drain the command queue with
`get_nowait` until empty, dispatching each command in FIFO order. -/
def process_commands (st : CbState) (w : CbWorld) : CbState × CbWorld :=
  let p := w.commandQueue.foldl (fun (p : CbState × CbWorld) c => process_one p.1 p.2 c) (st, w)
  (p.1, { p.2 with commandQueue := [] })

/-- `WebMetricsCallback._on_episode_end`: bump the episode counter,
append the episode's reward and lines, on a new best save the best model
(`_save_best_model` writes `best/model.zip` + `best/metadata.json` and
enqueues an `info` message), enqueue the `episode` message, and reset the
per-episode accumulators. -/
def on_episode_end (st : CbState) (w : CbWorld) : CbState × CbWorld :=
  let st1 :=
    { st with
        episode_count := st.episode_count + 1
        episode_rewards := st.episode_rewards ++ [st.current_episode_reward]
        episode_lines := st.episode_lines ++ [st.current_episode_lines] }
  let st2 :=
    if st1.best_lines < st1.current_episode_lines then
      { st1 with best_lines := st1.current_episode_lines }
    else st1
  let w2 :=
    if st1.best_lines < st1.current_episode_lines then
      { w with metricsQueue := w.metricsQueue ++ [Msg.info] }
    else w
  let w3 := { w2 with metricsQueue := w2.metricsQueue ++ [Msg.episode] }
  ({ st2 with current_episode_reward := 0, current_episode_lines := 0 }, w3)

/-- Result of one `on_step` call: the SB3 continue-training flag, the
updated callback state and shared world, and the ordered phase trace. -/
structure StepOut where
  cont : Bool
  st : CbState
  w : CbWorld
  phases : List Phase
deriving DecidableEq, Repr

/-- The shared world as it stands at `_on_step`'s post-wait stop
re-check: after the command drain and after `pause_event.wait()` (with
the supervisor's stop path applied when `extStop` is set). -/
def afterWaitWorld (st0 : CbState) (w0 : CbWorld) (extStop : Bool) : CbWorld :=
  let w2 := (process_commands { st0 with n_calls := st0.n_calls + 1 } w0).2
  if extStop then
    { w2 with stopEvent := setEvent w2.stopEvent, pauseEvent := setEvent w2.pauseEvent }
  else w2

/-- `BaseCallback.on_step` (which increments `n_calls`) followed by
`WebMetricsCallback._on_step`.

Inputs beyond the state: `extStop` is the oracle for the blocking
`pause_event.wait()` — `true` means that while the callback was blocked
(or between the drain and the re-check) the coordinator's stop path ran,
setting the stop flag and the pause gate; `rs`, `ls`, `ds` are
`self.locals` values `rewards`, per-info line counts, and `dones` for
this step.  (`dones[0]` is modelled with default `false`; SB3 always
supplies a non-empty `dones`.) -/
def on_step (st0 : CbState) (w0 : CbWorld) (extStop : Bool)
    (rs : List ℚ) (ls : List ℕ) (ds : List Bool) : StepOut :=
  let st1 := { st0 with n_calls := st0.n_calls + 1 }
  -- 1. check stop_event first (fast path)
  if eventIsSet w0.stopEvent then
    { cont := false, st := st1, w := w0, phases := [Phase.checkStop1] }
  else
    -- 2. drain and apply pending commands
    let st2 := (process_commands st1 w0).1
    -- 3. block on pause_event.wait(); `afterWaitWorld` is the shared
    --    world as the re-check sees it
    let w3 := afterWaitWorld st0 w0 extStop
    -- 4. re-check stop_event after the wait
    if eventIsSet w3.stopEvent then
      { cont := false, st := st2, w := w3,
        phases := [Phase.checkStop1, Phase.drainCommands, Phase.waitPauseGate, Phase.checkStop2] }
    else
      -- 5. track reward
      let st3 := { st2 with current_episode_reward := st2.current_episode_reward + rs.headD 0 }
      -- 6. track lines from infos
      let st4 :=
        { st3 with
            current_episode_lines :=
              ls.foldl (fun acc l => if acc < l then l else acc) st3.current_episode_lines }
      -- 7. board state + optional sleep, in visual mode on the board cadence
      let doBoard := st4.visual_mode && decide (st4.n_calls % st4.board_update_freq = 0)
      let w4 := if doBoard then { w3 with metricsQueue := w3.metricsQueue ++ [Msg.board] } else w3
      let boardPhases :=
        if doBoard then
          Phase.sendBoard :: (if 0 < st4.step_delay then [Phase.sleepDelay] else [])
        else []
      -- 8. metrics on the metrics cadence, regardless of mode
      let doMetrics := decide (st4.n_calls % st4.update_freq = 0)
      let w5 := if doMetrics then { w4 with metricsQueue := w4.metricsQueue ++ [Msg.metrics] } else w4
      let metricsPhases := if doMetrics then [Phase.sendMetrics] else []
      -- 9. episode end
      let st5 := if ds.headD false then (on_episode_end st4 w5).1 else st4
      let w6 := if ds.headD false then (on_episode_end st4 w5).2 else w5
      let epPhases := if ds.headD false then [Phase.episodeEnd] else []
      { cont := true, st := st5, w := w6,
        phases :=
          [Phase.checkStop1, Phase.drainCommands, Phase.waitPauseGate, Phase.checkStop2,
           Phase.trackReward, Phase.trackLines] ++ boardPhases ++ metricsPhases ++ epPhases }

/-- The `WebMetricsCallback` state as `_training_worker` constructs it
(`update_freq=100`, `board_update_freq=50`) at `_on_training_start`. -/
def initialCbState : CbState :=
  { update_freq := 100
    board_update_freq := 50
    visual_mode := false
    step_delay := 0
    n_calls := 0
    episode_rewards := []
    episode_lines := []
    current_episode_reward := 0
    current_episode_lines := 0
    episode_count := 0
    best_lines := 0 }

/-- `GoalReachedCallback._on_step` (with `get_best_lines` of the lines
tracker passed in): on a non-multiple of `check_freq`, continue; on a
checked call, stop (return `false`) exactly when `best_lines` has
reached `target_lines`. -/
def goal_on_step (target_lines check_freq n_calls best_lines : ℕ) : Bool :=
  if n_calls % check_freq ≠ 0 then true
  else if target_lines ≤ best_lines then false
  else true

end Callback

namespace Slots

/-- A character allowed by the slot-name character class
`[a-zA-Z0-9_-]` (documented in the source as "alphanumeric, underscore,
hyphen"). -/
def isSlotChar (c : Char) : Bool :=
  (97 ≤ c.toNat && c.toNat ≤ 122) ||   -- a-z
  (65 ≤ c.toNat && c.toNat ≤ 90) ||    -- A-Z
  (48 ≤ c.toNat && c.toNat ≤ 57) ||    -- 0-9
  c == '_' || c == '-'

/-- Python `re.match(r"^[a-zA-Z0-9_-]+$", s)` as a boolean.  Python's
`$` (without `re.MULTILINE`) matches at the end of the string **or just
before a single newline at the end of the string**, so the pattern also
accepts one-or-more slot characters followed by exactly one trailing
`\n`. -/
def slotNamePatternMatch (s : String) : Bool :=
  let cs := s.toList
  (!cs.isEmpty && cs.all isSlotChar) ||
  (cs.getLast? == some '\n' && !cs.dropLast.isEmpty && cs.dropLast.all isSlotChar)

/-- `ModelSlotManager._validate_slot_name`: empty names fail, otherwise
the regex decides. -/
def validate_slot_name (s : String) : Bool :=
  if s.isEmpty then false else slotNamePatternMatch s

/-- Directory-listing model of the checkpoint tree a `ModelSlotManager`
works in: which subdirectories of `base_dir` exist and which of them
contain `model.zip` / `metadata.json`, and the same for `slots/`.
Names are unique within each listing. -/
structure CheckpointFs where
  sourceDirs : List String
  sourceModels : List String
  sourceMetas : List String
  slotDirs : List String
  slotModels : List String
  slotMetas : List String
deriving DecidableEq, Repr

/-- `mkdir(exist_ok=True)` / file copy into a listing: add the name if
absent. -/
def insertName (n : String) (l : List String) : List String :=
  if l.contains n then l else l ++ [n]

/-- `ModelSlotManager.save_to_slot`: validate the slot name, require the
source directory and its `model.zip`, then create the slot directory,
copy `model.zip`, and copy `metadata.json` when the source has one.
Returns the success flag and the resulting tree. -/
def save_to_slot (fs : CheckpointFs) (source slot_name : String) : Bool × CheckpointFs :=
  if validate_slot_name slot_name = false then (false, fs)
  else if fs.sourceDirs.contains source = false then (false, fs)
  else if fs.sourceModels.contains source = false then (false, fs)
  else
    (true,
     { fs with
        slotDirs := insertName slot_name fs.slotDirs
        slotModels := insertName slot_name fs.slotModels
        slotMetas :=
          if fs.sourceMetas.contains source then insertName slot_name fs.slotMetas
          else fs.slotMetas })

/-- `ModelSlotManager.delete_slot`: validate the name, require the slot
directory to exist, then `rmtree` it. -/
def delete_slot (fs : CheckpointFs) (slot_name : String) : Bool × CheckpointFs :=
  if validate_slot_name slot_name = false then (false, fs)
  else if fs.slotDirs.contains slot_name = false then (false, fs)
  else
    (true,
     { fs with
        slotDirs := fs.slotDirs.filter (fun d => d ≠ slot_name)
        slotModels := fs.slotModels.filter (fun d => d ≠ slot_name)
        slotMetas := fs.slotMetas.filter (fun d => d ≠ slot_name) })

/-- `ModelSlotManager.slot_exists`: validate the name, then check for
`slots/<name>/model.zip`. -/
def slot_exists (fs : CheckpointFs) (slot_name : String) : Bool :=
  if validate_slot_name slot_name = false then false
  else fs.slotModels.contains slot_name

end Slots

namespace Conn

/-- The single `for connection in self.active_connections[:]` pass of
`ConnectionManager.broadcast`: clients are abstract handles (naturals);
`fails c = true` models `connection.send_json(message)` raising (the
`except` branch appends the client to `disconnected`), `false` models a
successful delivery.  Returns `(delivered, disconnected)` in iteration
order. -/
def broadcastPass (fails : ℕ → Bool) (conns : List ℕ) : List ℕ × List ℕ :=
  conns.foldl
    (fun acc c => if fails c then (acc.1, acc.2 ++ [c]) else (acc.1 ++ [c], acc.2))
    ([], [])

/-- `ConnectionManager.broadcast`: early-out on an empty set, then one
full delivery pass over a copy of the list, then `disconnect` (Python
`list.remove`, i.e. `List.erase`) each failed client from the active
list.  No exception escapes: every `send_json` fault is consumed by the
per-client `except`.  Returns the new active list and the list of
clients that received the message. -/
def broadcast (conns : List ℕ) (fails : ℕ → Bool) : List ℕ × List ℕ :=
  if conns.isEmpty then (conns, [])
  else
    let p := broadcastPass fails conns
    (p.2.foldl (fun a c => a.erase c) conns, p.1)

end Conn

namespace Agent

/-- `TrainingConfig` (`src/training/config.py`): floats as rationals,
`net_arch` a Python tuple (modelled as an `Array`), `target_lines`
optional. -/
structure TrainingConfig where
  learning_rate : ℚ
  buffer_size : ℕ
  batch_size : ℕ
  gamma : ℚ
  exploration_fraction : ℚ
  exploration_initial_eps : ℚ
  exploration_final_eps : ℚ
  target_update_interval : ℕ
  train_freq : ℕ
  gradient_steps : ℕ
  learning_starts : ℕ
  target_lines : Option ℕ
  max_timesteps : ℕ
  net_arch : Array ℕ
  checkpoint_dir : String
  checkpoint_freq : ℕ
deriving DecidableEq, Repr

/-- The JSON-dict form of a `TrainingConfig` (`dataclasses.asdict` with
`net_arch` converted to a list). -/
structure ConfigDict where
  learning_rate : ℚ
  buffer_size : ℕ
  batch_size : ℕ
  gamma : ℚ
  exploration_fraction : ℚ
  exploration_initial_eps : ℚ
  exploration_final_eps : ℚ
  target_update_interval : ℕ
  train_freq : ℕ
  gradient_steps : ℕ
  learning_starts : ℕ
  target_lines : Option ℕ
  max_timesteps : ℕ
  net_arch : List ℕ
  checkpoint_dir : String
  checkpoint_freq : ℕ
deriving DecidableEq, Repr

/-- `TrainingConfig.to_dict`: `asdict(self)` with the `net_arch` tuple
turned into a list. -/
def TrainingConfig.to_dict (c : TrainingConfig) : ConfigDict :=
  { learning_rate := c.learning_rate
    buffer_size := c.buffer_size
    batch_size := c.batch_size
    gamma := c.gamma
    exploration_fraction := c.exploration_fraction
    exploration_initial_eps := c.exploration_initial_eps
    exploration_final_eps := c.exploration_final_eps
    target_update_interval := c.target_update_interval
    train_freq := c.train_freq
    gradient_steps := c.gradient_steps
    learning_starts := c.learning_starts
    target_lines := c.target_lines
    max_timesteps := c.max_timesteps
    net_arch := c.net_arch.toList
    checkpoint_dir := c.checkpoint_dir
    checkpoint_freq := c.checkpoint_freq }

/-- `TrainingConfig.from_dict`: rebuild the dataclass, turning the
`net_arch` list back into a tuple. -/
def TrainingConfig.from_dict (d : ConfigDict) : TrainingConfig :=
  { learning_rate := d.learning_rate
    buffer_size := d.buffer_size
    batch_size := d.batch_size
    gamma := d.gamma
    exploration_fraction := d.exploration_fraction
    exploration_initial_eps := d.exploration_initial_eps
    exploration_final_eps := d.exploration_final_eps
    target_update_interval := d.target_update_interval
    train_freq := d.train_freq
    gradient_steps := d.gradient_steps
    learning_starts := d.learning_starts
    target_lines := d.target_lines
    max_timesteps := d.max_timesteps
    net_arch := d.net_arch.toArray
    checkpoint_dir := d.checkpoint_dir
    checkpoint_freq := d.checkpoint_freq }

/-- The defaults of `TrainingConfig` in `config.py`. -/
def defaultTrainingConfig : TrainingConfig :=
  { learning_rate := 1 / 10000
    buffer_size := 100000
    batch_size := 64
    gamma := 99 / 100
    exploration_fraction := 1 / 5
    exploration_initial_eps := 1
    exploration_final_eps := 1 / 20
    target_update_interval := 1000
    train_freq := 4
    gradient_steps := 1
    learning_starts := 10000
    target_lines := none
    max_timesteps := 500000
    net_arch := #[256, 256]
    checkpoint_dir := "./checkpoints"
    checkpoint_freq := 10000 }

/-- The checkpoint-relevant state of a `TetrisAgent`: the
`_total_timesteps_trained` counter, the wrapped model's
`num_timesteps` (the only model observable the metadata envelope
records), and the config.  The env and the network weights are opaque
collaborators outside the metadata contract. -/
structure AgentState where
  total_timesteps_trained : ℕ
  num_timesteps : ℕ
  config : TrainingConfig
deriving DecidableEq, Repr

/-- The `metadata.json` envelope `save_checkpoint` writes. -/
structure CheckpointMeta where
  total_timesteps_trained : ℕ
  num_timesteps : ℕ
  config : ConfigDict
deriving DecidableEq, Repr

/-- A checkpoint directory: the metadata envelope plus the
`num_timesteps` counter stored inside the opaque `model.zip` (restored
by `DQN.load`); the replay buffer is opaque and irrelevant to the
metadata claims. -/
structure Checkpoint where
  meta : CheckpointMeta
  model_num_timesteps : ℕ
deriving DecidableEq, Repr

/-- `TetrisAgent.save_checkpoint`: write `model.zip`,
`replay_buffer.pkl`, and the metadata envelope
`{total_timesteps_trained, num_timesteps, config: to_dict()}`. -/
def save_checkpoint (a : AgentState) : Checkpoint :=
  { meta :=
      { total_timesteps_trained := a.total_timesteps_trained
        num_timesteps := a.num_timesteps
        config := a.config.to_dict }
    model_num_timesteps := a.num_timesteps }

/-- `TetrisAgent.load_checkpoint`: read the metadata envelope, rebuild
the config with `from_dict`, restore `_total_timesteps_trained`, and let
`DQN.load` restore the model (hence `num_timesteps`). -/
def load_checkpoint (cp : Checkpoint) : AgentState :=
  { total_timesteps_trained := cp.meta.total_timesteps_trained
    num_timesteps := cp.model_num_timesteps
    config := TrainingConfig.from_dict cp.meta.config }

end Agent



end MlTetris


namespace MlTetris

open Manager Callback Slots Conn Agent

/-! ## Claim theorems -/

/-- **C1 (counterexample).**  The mutual-exclusion claim fails as stated:
from the initial manager state, `start_demo` followed by `start_training`
leaves **both** the demo worker and the training worker alive
(`start_training` only checks `is_running`, never `is_demo_running`, and
never stops the demo), with status "running". -/
theorem C1_mutual_exclusion_cex :
    (Manager.run Manager.initState
        [MgrOp.startDemo false false, MgrOp.startTraining]).trainingAlive = true ∧
    (Manager.run Manager.initState
        [MgrOp.startDemo false false, MgrOp.startTraining]).demoAlive = true := by
  exact ⟨rfl, rfl⟩

/-- Effect of the coordinator operations on the training-alive bit:
`start_training` always leaves the training worker alive (it refuses only
when the worker already is alive), and leaves the demo bit untouched. -/
theorem start_training_alive (s : ManagerState) :
    (start_training s).2.1.trainingAlive = true ∧
    (start_training s).2.1.demoAlive = s.demoAlive := by
  unfold start_training is_running
  cases h : s.trainingAlive <;> simp [h]

/-- `stop_demo` always leaves the demo worker dead and the training bit
untouched. -/
theorem stop_demo_alive (dEx : Bool) (s : ManagerState) :
    (stop_demo dEx s).1.demoAlive = false ∧
    (stop_demo dEx s).1.trainingAlive = s.trainingAlive := by
  unfold stop_demo is_demo_running
  cases h : s.demoAlive <;> simp [h]

/-- `stop_training` leaves the demo worker dead, and leaves the training
worker alive exactly when both workers were alive on entry (in which
case the call delegated to `stop_demo` and never touched the training
worker). -/
theorem stop_training_alive (tEx dEx : Bool) (s : ManagerState) :
    (stop_training tEx dEx s).1.trainingAlive = (s.trainingAlive && s.demoAlive) ∧
    (stop_training tEx dEx s).1.demoAlive = false := by
  unfold stop_training
  cases hd : s.demoAlive <;> cases ht : s.trainingAlive <;>
    simp [is_demo_running, is_running, hd, ht, stop_demo]

/-- **C1 (amended, confirmed).**  Mutual exclusion holds for every
coordinator call except a `start_training` issued while the demo worker
is alive: from any state with at most one worker alive, any operation
that is not a `start_training`-with-demo-alive again yields at most one
worker alive.  (In particular `start_demo` while training is alive stops
training first; the unguarded direction is exactly the one the
counterexample exhibits.) -/
theorem C1_mutual_exclusion_amended (s : ManagerState) (op : MgrOp)
    (hmx : mutex s) (hst : op = MgrOp.startTraining → s.demoAlive = false) :
    mutex (step s op) := by
  cases op with
  | startTraining =>
      have hd := hst rfl
      right
      rw [show step s MgrOp.startTraining = (start_training s).2.1 from rfl,
          (start_training_alive s).2, hd]
  | startDemo tEx dEx =>
      show mutex (start_demo tEx dEx s).2.1
      unfold start_demo
      rcases hmx with h | h
      · -- training dead: stop_training is skipped
        cases hd : s.demoAlive
        · simp only [is_running, h, if_neg Bool.false_ne_true, is_demo_running, hd]
          simp [mutex, h]
        · simp only [is_running, h, if_neg Bool.false_ne_true, is_demo_running, hd]
          simp [mutex, h]
      · -- demo dead
        cases ht : s.trainingAlive
        · simp only [is_running, ht, if_neg Bool.false_ne_true, is_demo_running, h]
          simp [mutex, ht]
        · have hstop := stop_training_alive tEx dEx s
          simp only [is_running, ht, if_pos rfl, is_demo_running]
          simp [mutex, hstop.1, hstop.2, ht, h]
  | stopTraining tEx dEx =>
      right; exact (stop_training_alive tEx dEx s).2
  | stopDemo dEx =>
      right; exact (stop_demo_alive dEx s).1
  | pauseTraining =>
      show mutex (pause_training s).2
      unfold pause_training
      split <;> simpa [mutex] using hmx
  | resumeTraining =>
      show mutex (resume_training s).2
      unfold resume_training
      split <;> simpa [mutex] using hmx
  | setMode v =>
      simpa [mutex, step, set_mode] using hmx
  | setSpeed sp =>
      simpa [mutex, step, set_speed] using hmx

/-- **C1 witness.** -/
theorem C1_mutual_exclusion_witness :
    mutex (Manager.step Manager.initState MgrOp.startTraining) :=
  C1_mutual_exclusion_amended Manager.initState MgrOp.startTraining
    (Or.inl rfl) (fun _ => rfl)


/-- **C2 (counterexample).**  The stop-ordering claim fails as stated:
in the (reachable) state produced by `start_demo` then `start_training`,
the training worker is alive with status "running", yet `stop_training`
delegates to `stop_demo` — it never sets the pause gate, never joins or
terminates the training worker (which stays alive after the call
returns), even though the call does end with status "stopped". -/
theorem C2_stop_order_cex :
    (Manager.run Manager.initState
        [MgrOp.startDemo false false, MgrOp.startTraining]).trainingAlive = true ∧
    (Manager.run Manager.initState
        [MgrOp.startDemo false false, MgrOp.startTraining]).status = Status.running ∧
    (stop_training true true (Manager.run Manager.initState
        [MgrOp.startDemo false false, MgrOp.startTraining])).1.trainingAlive = true ∧
    Effect.setPauseGate ∉ (stop_training true true (Manager.run Manager.initState
        [MgrOp.startDemo false false, MgrOp.startTraining])).2 ∧
    Effect.terminateTraining ∉ (stop_training true true (Manager.run Manager.initState
        [MgrOp.startDemo false false, MgrOp.startTraining])).2 := by
  refine ⟨rfl, rfl, rfl, ?_, ?_⟩ <;> decide

/-- **C2 (amended, confirmed).**  Whenever `stop_training` is called
while the training worker is alive **and the demo worker is not**, the
coordinator performs, in this order: status "stopping", set stop flag,
set pause gate, enqueue the stop command, join with the bounded timeout
5; if the worker did not exit within the timeout it escalates to
`terminate` followed by a second bounded join; and the call ends with
status "stopped", the stop flag and the pause gate both set, and the
training worker no longer alive — so a stop requested while paused
cannot block indefinitely. -/
theorem C2_stop_order_amended (s : ManagerState) (tEx dEx : Bool)
    (ht : s.trainingAlive = true) (hd : s.demoAlive = false) :
    (stop_training tEx dEx s).1.status = Status.stopped ∧
    (stop_training tEx dEx s).1.trainingAlive = false ∧
    (stop_training tEx dEx s).1.stopEvent = true ∧
    (stop_training tEx dEx s).1.pauseEvent = true ∧
    List.Sublist
      [Effect.setStatus Status.stopping, Effect.setStopFlag, Effect.setPauseGate,
       Effect.putCommand Cmd.stop, Effect.joinTraining 5]
      (stop_training tEx dEx s).2 ∧
    (tEx = false →
      List.Sublist
        [Effect.setStopFlag, Effect.setPauseGate, Effect.joinTraining 5,
         Effect.terminateTraining, Effect.joinTraining 2]
        (stop_training tEx dEx s).2) := by
  unfold stop_training
  simp only [is_demo_running, hd, is_running, ht]
  cases tEx <;> simp

/-- **C2 witness.** -/
theorem C2_stop_order_witness :
    (stop_training false false (Manager.step Manager.initState MgrOp.startTraining)).1.status
        = Status.stopped ∧
    (stop_training false false (Manager.step Manager.initState MgrOp.startTraining)).1.trainingAlive
        = false ∧
    (stop_training false false (Manager.step Manager.initState MgrOp.startTraining)).1.stopEvent
        = true ∧
    (stop_training false false (Manager.step Manager.initState MgrOp.startTraining)).1.pauseEvent
        = true ∧
    List.Sublist
      [Effect.setStatus Status.stopping, Effect.setStopFlag, Effect.setPauseGate,
       Effect.putCommand Cmd.stop, Effect.joinTraining 5]
      (stop_training false false (Manager.step Manager.initState MgrOp.startTraining)).2 ∧
    (false = false →
      List.Sublist
        [Effect.setStopFlag, Effect.setPauseGate, Effect.joinTraining 5,
         Effect.terminateTraining, Effect.joinTraining 2]
        (stop_training false false (Manager.step Manager.initState MgrOp.startTraining)).2) :=
  C2_stop_order_amended (Manager.step Manager.initState MgrOp.startTraining) false false rfl rfl

/-- **C10 (confirmed).**  `stop_training` called while neither worker is
alive only writes status := "stopped": the stop flag, the pause gate,
both queues, `visual_mode`, `speed` and the worker handles are all left
exactly as they were, no command is enqueued, and the only effect
performed is the status write. -/
theorem C10_stop_noop (s : ManagerState) (tEx dEx : Bool)
    (ht : s.trainingAlive = false) (hd : s.demoAlive = false) :
    stop_training tEx dEx s =
      ({ s with status := Status.stopped }, [Effect.setStatus Status.stopped]) := by
  unfold stop_training
  simp [is_demo_running, is_running, ht, hd]

/-- **C10 witness.** -/
theorem C10_stop_noop_witness :
    stop_training true true Manager.initState =
      ({ Manager.initState with status := Status.stopped },
       [Effect.setStatus Status.stopped]) :=
  C10_stop_noop Manager.initState true true rfl rfl

/-- **C7 (confirmed).**  `pause_training` fails and leaves the whole
manager state (pause gate and status included) unchanged when the
session is not running or is already paused; `resume_training` fails and
leaves the state unchanged whenever status is not "paused" (so resuming
a running session fails). -/
theorem C7_pause_resume_failure (s : ManagerState) :
    ((is_running s = false ∨ s.status = Status.paused) →
        pause_training s = (false, s)) ∧
    (s.status ≠ Status.paused → resume_training s = (false, s)) := by
  constructor
  · intro h
    unfold pause_training
    exact if_pos h
  · intro h
    unfold resume_training
    exact if_pos h

/-- **C7 witness** (fresh manager: not running, status "stopped"). -/
theorem C7_pause_resume_failure_witness :
    pause_training Manager.initState = (false, Manager.initState) ∧
    resume_training Manager.initState = (false, Manager.initState) :=
  ⟨(C7_pause_resume_failure Manager.initState).1 (Or.inl rfl),
   (C7_pause_resume_failure Manager.initState).2 (by decide)⟩


/-- **C8 (confirmed).**  `GoalReachedCallback._on_step` compares only on
every `check_freq`-th call (continuing otherwise) and, on a checked
call, signals stop (returns `false`) exactly when the tracker's
`best_lines` has reached `target_lines`. -/
theorem C8_goal_check (target_lines check_freq n_calls best_lines : ℕ)
    (_hf : 0 < check_freq) :
    goal_on_step target_lines check_freq n_calls best_lines = false ↔
      (n_calls % check_freq = 0 ∧ target_lines ≤ best_lines) := by
  unfold goal_on_step
  split_ifs with h1 h2 <;> simp_all

/-- **C8 witness** (the P6 scenario: `best_lines = 5`, `check_freq = 1`;
`target_lines = 5` stops on the next call, `target_lines = 100`
continues). -/
theorem C8_goal_check_witness :
    ((goal_on_step 5 1 1 5 = false ↔ (1 % 1 = 0 ∧ 5 ≤ 5)) ∧
     (goal_on_step 100 1 1 5 = false ↔ (1 % 1 = 0 ∧ 100 ≤ 5))) ∧
    goal_on_step 5 1 1 5 = false ∧ goal_on_step 100 1 1 5 = true :=
  ⟨⟨C8_goal_check 5 1 1 5 (by decide), C8_goal_check 100 1 1 5 (by decide)⟩,
   by decide, by decide⟩

/-- **C9 (confirmed).**  Processing a `set_speed s` command first clamps
`s` to `[0.1, 1.0]` and then sets `step_delay := (1.0 - clamped) * 0.5`;
for every `s` the resulting delay lies in `[0, 0.45]` seconds, with
speed `1.0` giving delay `0` and speed `0.1` giving `0.45 = 9/20`. -/
theorem C9_set_speed_clamp (st : CbState) (w : CbWorld) (s : ℚ) :
    (process_one st w (Cmd.set_speed s)).1.step_delay
        = (1 - max (1 / 10) (min 1 s)) * (1 / 2) ∧
    0 ≤ (process_one st w (Cmd.set_speed s)).1.step_delay ∧
    (process_one st w (Cmd.set_speed s)).1.step_delay ≤ 9 / 20 ∧
    (process_one st w (Cmd.set_speed 1)).1.step_delay = 0 ∧
    (process_one st w (Cmd.set_speed (1 / 10))).1.step_delay = 9 / 20 := by
  have hlo : (1 / 10 : ℚ) ≤ max (1 / 10) (min 1 s) := le_max_left _ _
  have hhi : max (1 / 10 : ℚ) (min 1 s) ≤ 1 :=
    max_le (by norm_num) (min_le_left _ _)
  refine ⟨rfl, ?_, ?_, ?_, ?_⟩
  · show 0 ≤ (1 - max (1 / 10) (min 1 s)) * (1 / 2 : ℚ)
    nlinarith
  · show (1 - max (1 / 10) (min 1 s)) * (1 / 2 : ℚ) ≤ 9 / 20
    nlinarith
  · norm_num [process_one]
  · norm_num [process_one]

/-- **C4 (the claim is right; the source's validation regex is buggy).**
The source documents the valid-name charset as "alphanumeric,
underscore, hyphen" and the claim requires every name containing other
characters to be rejected before any filesystem operation.  But Python's
`re.match(r"^[a-zA-Z0-9_-]+$", name)` also accepts a single **trailing
newline** (`$` matches just before a final newline), so
`"run1" ++ "\n"` passes validation even though `\n` is outside the
charset, and the filesystem operations then proceed with that name:
`delete_slot` on an existing slot directory named `"run1\n"` returns
`true` and removes it.  The claim's other test points behave as stated:
`""` and `"../escape"` are rejected with no filesystem change, and
`save_to_slot "best" "run1"` with an existing `best/model.zip` succeeds
and creates `slots/run1/model.zip`. -/
theorem C4_slot_validation_newline_bug :
    validate_slot_name "run1\n" = true ∧
    isSlotChar (Char.ofNat 10) = false ∧
    (delete_slot
        { sourceDirs := [], sourceModels := [], sourceMetas := [],
          slotDirs := ["run1\n"], slotModels := ["run1\n"], slotMetas := [] }
        "run1\n").1 = true ∧
    (delete_slot
        { sourceDirs := [], sourceModels := [], sourceMetas := [],
          slotDirs := ["run1\n"], slotModels := ["run1\n"], slotMetas := [] }
        "run1\n").2.slotDirs = [] ∧
    validate_slot_name "" = false ∧
    validate_slot_name "../escape" = false ∧
    (save_to_slot
        { sourceDirs := ["best"], sourceModels := ["best"], sourceMetas := ["best"],
          slotDirs := [], slotModels := [], slotMetas := [] }
        "best" "../escape")
      = (false,
         { sourceDirs := ["best"], sourceModels := ["best"], sourceMetas := ["best"],
           slotDirs := [], slotModels := [], slotMetas := [] }) ∧
    (save_to_slot
        { sourceDirs := ["best"], sourceModels := ["best"], sourceMetas := ["best"],
          slotDirs := [], slotModels := [], slotMetas := [] }
        "best" "")
      = (false,
         { sourceDirs := ["best"], sourceModels := ["best"], sourceMetas := ["best"],
           slotDirs := [], slotModels := [], slotMetas := [] }) ∧
    (save_to_slot
        { sourceDirs := ["best"], sourceModels := ["best"], sourceMetas := ["best"],
          slotDirs := [], slotModels := [], slotMetas := [] }
        "best" "run1").1 = true ∧
    (save_to_slot
        { sourceDirs := ["best"], sourceModels := ["best"], sourceMetas := ["best"],
          slotDirs := [], slotModels := [], slotMetas := [] }
        "best" "run1").2.slotModels = ["run1"] := by
  refine ⟨?_, ?_, ?_, ?_, ?_, ?_, ?_, ?_, ?_, ?_⟩ <;> decide

/-- **C6 (confirmed).**  Saving a checkpoint and reloading it
round-trips the metadata envelope exactly: the reloaded agent reports
the same `timesteps_trained` and the same config (the `net_arch`
tuple→list→tuple conversion included); in particular an agent with
`timesteps_trained = 150` and the default config
(`max_timesteps = 500000`) reloads to `150` and `500000`. -/
theorem C6_metadata_round_trip (a : AgentState) :
    load_checkpoint (save_checkpoint a) = a ∧
    (load_checkpoint (save_checkpoint
        { total_timesteps_trained := 150, num_timesteps := 150,
          config := defaultTrainingConfig })).total_timesteps_trained = 150 ∧
    (load_checkpoint (save_checkpoint
        { total_timesteps_trained := 150, num_timesteps := 150,
          config := defaultTrainingConfig })).config.max_timesteps = 500000 := by
  refine ⟨?_, rfl, rfl⟩
  cases a with
  | mk t n c =>
      cases c
      simp [load_checkpoint, save_checkpoint, TrainingConfig.from_dict,
        TrainingConfig.to_dict]


/-- The delivery pass, from arbitrary accumulators: delivered clients
are the non-failing ones in order, disconnected clients the failing
ones in order. -/
theorem broadcastPass_go (fails : ℕ → Bool) (conns : List ℕ) : ∀ d x : List ℕ,
    List.foldl
      (fun (acc : List ℕ × List ℕ) c =>
        if fails c then (acc.1, acc.2 ++ [c]) else (acc.1 ++ [c], acc.2))
      (d, x) conns
      = (d ++ conns.filter (fun c => !(fails c)), x ++ conns.filter fails) := by
  induction conns with
  | nil => intro d x; simp
  | cons c t ih =>
      intro d x
      cases h : fails c <;> simp [h, ih, List.filter_cons]

/-- Erasing a batch of elements, none equal to the head, commutes with
the head. -/
theorem foldl_erase_cons (c : ℕ) (t : List ℕ) :
    ∀ m : List ℕ, (∀ x ∈ m, x ≠ c) →
      List.foldl (fun (a : List ℕ) y => a.erase y) (c :: t) m
        = c :: List.foldl (fun (a : List ℕ) y => a.erase y) t m := by
  intro m
  induction m generalizing t with
  | nil => intro; rfl
  | cons y ys ih =>
      intro h
      have hy : y ≠ c := h y (List.mem_cons_self y ys)
      simp only [List.foldl_cons]
      rw [List.erase_cons_tail (by simpa using fun e => hy e.symm)]
      exact ih _ (fun x hx => h x (List.mem_cons_of_mem y hx))

/-- Erasing, from a duplicate-free list, exactly those members that
satisfy `q` leaves exactly the members that do not. -/
theorem foldl_erase_filter (q : ℕ → Bool) :
    ∀ l : List ℕ, l.Nodup →
      List.foldl (fun (a : List ℕ) c => a.erase c) l (l.filter q)
        = l.filter (fun c => !(q c)) := by
  intro l
  induction l with
  | nil => intro; rfl
  | cons c t ih =>
      intro hnd
      obtain ⟨hc, ht⟩ := List.nodup_cons.mp hnd
      cases hq : q c
      · rw [List.filter_cons_of_neg (by simp [hq]),
          List.filter_cons_of_pos (by simp [hq])]
        rw [foldl_erase_cons c t _
          (fun x hx => fun e => hc (e ▸ List.mem_of_mem_filter hx))]
        rw [ih ht]
      · rw [List.filter_cons_of_pos (by simp [hq]),
          List.filter_cons_of_neg (by simp [hq])]
        simp only [List.foldl_cons, List.erase_cons_head]
        exact ih ht

/-- **C5 (confirmed).**  For every duplicate-free set of active clients
and every failure pattern, `broadcast` delivers the message to exactly
the clients whose send does not raise — a failure on one client never
prevents delivery to the others — and afterwards the active list
consists of exactly the non-failing clients (the failing ones are
removed, only after the full delivery pass, since the pass iterates
over a copy).  `broadcast` is a total function: per-client send faults
are consumed by the per-client handler and no exception reaches the
caller. -/
theorem C5_broadcast_resilience (conns : List ℕ) (fails : ℕ → Bool)
    (h : conns.Nodup) :
    (broadcast conns fails).2 = conns.filter (fun c => !(fails c)) ∧
    (broadcast conns fails).1 = conns.filter (fun c => !(fails c)) := by
  have hp : broadcastPass fails conns
      = (conns.filter (fun c => !(fails c)), conns.filter fails) := by
    unfold broadcastPass
    simpa using broadcastPass_go fails conns [] []
  cases he : conns.isEmpty
  · simp [broadcast, he, hp, foldl_erase_filter fails conns h]
  · have hnil : conns = [] := List.isEmpty_iff.mp he
    subst hnil
    simp [broadcast]

/-- **C5 witness** (three clients, the middle one raising on send). -/
theorem C5_broadcast_resilience_witness :
    (broadcast [0, 1, 2] (fun c => c == 1)).2 = [0, 2] ∧
    (broadcast [0, 1, 2] (fun c => c == 1)).1 = [0, 2] := by
  have h := C5_broadcast_resilience [0, 1, 2] (fun c => c == 1) (by decide)
  simpa using h


/-- The command drain leaves the command queue empty. -/
theorem process_commands_commandQueue (st : CbState) (w : CbWorld) :
    (process_commands st w).2.commandQueue = [] := rfl

/-- The world at the post-wait re-check has an empty command queue. -/
theorem afterWaitWorld_commandQueue (st : CbState) (w : CbWorld) (ext : Bool) :
    (afterWaitWorld st w ext).commandQueue = [] := by
  unfold afterWaitWorld
  cases ext <;> simp [process_commands_commandQueue]

/-- Projecting the command queue out of a conditional world. -/
theorem commandQueue_ite (c : Prop) [Decidable c] (a b : CbWorld) :
    (if c then a else b).commandQueue
      = if c then a.commandQueue else b.commandQueue := by
  split <;> rfl

/-- Episode-end handling only touches the metrics queue, never the
command queue. -/
theorem on_episode_end_commandQueue (st : CbState) (w : CbWorld) :
    (on_episode_end st w).2.commandQueue = w.commandQueue := by
  simp [on_episode_end, commandQueue_ite]

set_option maxRecDepth 8000 in
/-- **C3 (confirmed).**  Every `WebMetricsCallback` iteration observes
the strict order (1) stop check — if the stop flag is set the iteration
returns the stop result at once, with nothing else done (no drain, no
wait, no step work, world untouched); (2) command drain; (3) pause-gate
wait; (4) stop re-check — if the flag is set by then (a stop command in
the drained queue, or the coordinator's stop while the worker was
blocked) the iteration returns the stop result with exactly the four
control phases executed and no training-step work (no reward/line
tracking, board, metrics or episode handling); the iteration stops at
the re-check exactly when the stop flag is set at that point, and in
all non-fast-path cases the command queue has been fully drained. -/
theorem C3_step_order (st : CbState) (w : CbWorld) (ext : Bool)
    (rs : List ℚ) (ls : List ℕ) (ds : List Bool) :
    (eventIsSet w.stopEvent = true →
        on_step st w ext rs ls ds =
          { cont := false, st := { st with n_calls := st.n_calls + 1 }, w := w,
            phases := [Phase.checkStop1] }) ∧
    (eventIsSet w.stopEvent = false →
        (on_step st w ext rs ls ds).phases.take 4 =
            [Phase.checkStop1, Phase.drainCommands, Phase.waitPauseGate,
             Phase.checkStop2] ∧
        (on_step st w ext rs ls ds).w.commandQueue = [] ∧
        ((on_step st w ext rs ls ds).cont = false ↔
            eventIsSet (afterWaitWorld st w ext).stopEvent = true) ∧
        ((on_step st w ext rs ls ds).cont = false →
            (on_step st w ext rs ls ds).phases =
              [Phase.checkStop1, Phase.drainCommands, Phase.waitPauseGate,
               Phase.checkStop2] ∧
            (on_step st w ext rs ls ds).st =
              (process_commands { st with n_calls := st.n_calls + 1 } w).1 ∧
            (on_step st w ext rs ls ds).w = afterWaitWorld st w ext)) := by
  constructor
  · intro h
    simp [on_step, h]
  · intro h
    by_cases h2 : eventIsSet (afterWaitWorld st w ext).stopEvent = true
    · simp [on_step, h, h2, afterWaitWorld_commandQueue]
    · have h2f : eventIsSet (afterWaitWorld st w ext).stopEvent = false := by
        simpa using h2
      simp [on_step, h, h2f, afterWaitWorld_commandQueue,
        on_episode_end_commandQueue, commandQueue_ite]

/-- **C3 witness** (stop flag already set on entry: the iteration
returns the stop result immediately, with only the first phase run). -/
theorem C3_step_order_witness :
    on_step initialCbState
        { stopEvent := some true, pauseEvent := some true,
          commandQueue := [], metricsQueue := [] } false [] [] [] =
      { cont := false,
        st := { initialCbState with n_calls := 1 },
        w := { stopEvent := some true, pauseEvent := some true,
               commandQueue := [], metricsQueue := [] },
        phases := [Phase.checkStop1] } :=
  (C3_step_order initialCbState
    { stopEvent := some true, pauseEvent := some true,
      commandQueue := [], metricsQueue := [] } false [] [] []).1 rfl

end MlTetris
